import Mathlib

/-!
Shallow embedding of `heat/engine/stack_resource.py` (class `StackResource`):
the nested-stack lifecycle orchestrator.  External collaborators (the `Stack`
graph object, the `TaskRunner` scheduler primitive, persistence, configuration)
are modelled at their interface boundary: their observable fields are oracle
data carried in records, and the operations of `StackResource` are translated
statement by statement from the Python source.

Python exceptions are modelled with `Except`; instance state is threaded
explicitly (`ResState`), as is the persistence layer (`World`).
-/

namespace StackRes

/-- Lifecycle actions of a stack (graph). -/
inductive Action
  | CREATE
  | UPDATE
  | DELETE
  | SUSPEND
  | RESUME
deriving DecidableEq, Repr

/-- Lifecycle statuses of a stack (graph). -/
inductive Status
  | IN_PROGRESS
  | COMPLETE
  | FAILED
deriving DecidableEq, Repr

/--
The nested stack (graph) collaborator, `parser.Stack`, at its interface
boundary.  `resourcesCount` models `len(stack.resources)` (direct resources
only), `totalResources` models `stack.total_resources()` (recursive tree
total of this stack), and `rootTotal` models
`stack.root_stack.total_resources()` (recursive total of the whole tree this
stack belongs to).  `outputs` is the mapping of output names to values.
-/
structure Stack where
  name : String
  action : Action
  status : Status
  status_reason : String
  resourcesCount : Nat
  totalResources : Nat
  rootTotal : Nat
  timeoutMins : Option Nat
  disable_rollback : Bool
  owner_id : Option Nat
  outputs : List (String × String)
deriving DecidableEq, Repr

/-- `stack.state`: the (action, status) pair. -/
def Stack.state (g : Stack) : Action × Status := (g.action, g.status)

/-- Modelled from the spec: the Graph collaborator's `timeout_secs()`
(`parser.Stack.timeout_secs` is outside src/): the configured timeout in
seconds, from `timeout_mins` with the collaborator's default of 60 minutes. -/
def Stack.timeout_secs (g : Stack) : Nat := (g.timeoutMins.getD 60) * 60

/-- `stack.output(op)`: look up the value of a named output. -/
def Stack.output (g : Stack) (op : String) : Option String :=
  g.outputs.lookup op

/-- `op in stack.outputs`: membership among the output names. -/
def Stack.hasOutput (g : Stack) (op : String) : Bool :=
  (g.outputs.map Prod.fst).contains op

/-- What callable a `scheduler.TaskRunner` wraps. -/
inductive TaskKind
  | stackTask (action : Action) (reverse : Bool)
  | updateTask (target : Stack)
  | deleteTask
deriving DecidableEq, Repr

/--
The `scheduler.TaskRunner` collaborator at its interface boundary.
`startTimeout` records the `timeout` argument passed to `start` (`none` when
`start()` is called with no timeout, so the graph's own configured timeout
applies).  `quanta` is an oracle for how many scheduling quanta the task
needs: `step()` returns done exactly on the quantum that exhausts it.
-/
structure TaskRunner where
  kind : TaskKind
  started : Bool
  startTimeout : Option Nat
  quanta : Nat
deriving DecidableEq, Repr

/-- `task.start(timeout=...)` / `task.start()`. -/
def TaskRunner.start (t : TaskRunner) (timeout : Option Nat) : TaskRunner :=
  { t with started := true, startTimeout := timeout }

/-- The task after one `step()`. -/
def TaskRunner.stepTask (t : TaskRunner) : TaskRunner :=
  { t with quanta := t.quanta - 1 }

/-- Whether this `step()` call reports done. -/
def TaskRunner.stepDone (t : TaskRunner) : Bool :=
  t.quanta ≤ 1

/-- `task.step()`: advance one quantum, reporting done exactly once. -/
def TaskRunner.step (t : TaskRunner) : TaskRunner × Bool :=
  (t.stepTask, t.stepDone)

/--
The message of a `RequestLimitExceeded` exception, modelled structurally.
In the source the two quota guards raise the same exception class with
distinct message strings: `"Recursion depth exceeds %d." % ceiling` and
`exception.StackResourceLimitExceeded.msg_fmt`.
-/
inductive LimitMsg
  | recursionDepthExceeds (ceiling : Nat)
  | maxResourcesPerStack
deriving DecidableEq, Repr

/-- The exceptions raised by this module (`heat.common.exception` classes,
plus Python's own `AttributeError` for attribute access on `None`). -/
inductive Exc
  | RequestLimitExceeded (message : LimitMsg)
  | Error (reason : String)
  | NotFound (message : String)
  | InvalidTemplateAttribute (resource : String) (key : String)
  | StackValidationFailed (message : String)
  | AttributeError
deriving DecidableEq, Repr

/--
A child template (the `child_template` JSON snippet / `parser.Template`).
`resources` models the `Resources` section (one entry per resource);
`outputs` models the `Outputs` section: `none` when the `Outputs` key is
absent, `some kvs` (name/value pairs) when present.
-/
structure RawTemplate where
  resources : List String
  outputs : Option (List (String × String))
deriving DecidableEq, Repr

/-- Process-wide configuration (`cfg.CONF`), read-only. -/
structure Config where
  max_nested_stack_depth : Nat
  max_resources_per_stack : Nat
deriving DecidableEq, Repr

/--
The mutable state of one `StackResource` instance.  `stackId` is
`self.stack.id` (the parent stack's id) and `rootTotal` is
`self.stack.root_stack.total_resources()`.  `classAttributesSchema` models
`hasattr(type(self), 'attributes_schema')`: whether the concrete resource
type declares a fixed class-level attribute schema.
-/
structure ResState where
  name : String
  recursion_depth : Nat
  _nested : Option Stack
  resource_id : Option Nat
  attributes : Option (List String)
  classAttributesSchema : Bool
  stackId : Nat
  rootTotal : Nat
deriving DecidableEq, Repr

/-- The persistence collaborator: stored stacks by id, and the id the next
`store()` will assign. -/
structure World where
  db : List (Nat × Stack)
  nextId : Nat
deriving DecidableEq, Repr

/-- Oracles for the external collaborators: whether `stack.validate()`
succeeds on a given stack, and how many quanta a freshly created task
needs. -/
structure Env where
  validateOk : Stack → Bool
  quanta : Nat

/--
`StackResource.__init__` (lines 43-50): `_nested` starts empty and
`recursion_depth` is the parent resource's depth + 1, or 0 without a parent.
`rid`, `attrs` and `classFlag` stand for state restored by the
`resource.Resource` superclass (outside src/): the persisted backing id, any
pre-existing attributes, and the class-level schema flag.
-/
def init (name : String) (parentResourceDepth : Option Nat) (stackId rootTotal : Nat)
    (rid : Option Nat) (attrs : Option (List String)) (classFlag : Bool) : ResState :=
  { name := name
    recursion_depth :=
      match parentResourceDepth with
      | some d => d + 1
      | none => 0
    _nested := none
    resource_id := rid
    attributes := attrs
    classAttributesSchema := classFlag
    stackId := stackId
    rootTotal := rootTotal }

/--
`_outputs_to_attribs` (lines 52-59): when the instance has no attributes yet
and the snippet has an `Outputs` key, build the attribute schema from the
declared output names.
-/
def outputs_to_attribs (s : ResState) (json_snippet : RawTemplate) : ResState :=
  if s.attributes = none ∧ json_snippet.outputs.isSome then
    { s with attributes := some ((json_snippet.outputs.getD []).map Prod.fst) }
  else
    s

/--
`nested()` (lines 61-74): return the cached stack if present; otherwise,
with a backing `resource_id`, load from persistence (caching the result) and
raise `NotFound` when nothing is persisted under that id; with no backing id,
return absence.
-/
def nestedRes (s : ResState) (w : World) : Except Exc (Option Stack) × ResState :=
  match s._nested with
  | some g => (.ok (some g), s)
  | none =>
    match s.resource_id with
    | none => (.ok none, s)
    | some rid =>
      match w.db.lookup rid with
      | none => (.error (.NotFound "Nested stack not found in DB"), s)
      | some g => (.ok (some g), { s with _nested := some g })

/--
The `parser.Stack(...)` constructor call shared by create and update
(lines 95-102 / 144-151): rollback disabled unconditionally, parent set to
this resource, owner id set to the parent stack's id, requested timeout
applied.  Fields the constructor cannot know yet (terminal state, tree
totals) take their initial values; no claim inspects them on a fresh stack.
-/
def mkStack (s : ResState) (t : RawTemplate) (timeout_mins : Option Nat) : Stack :=
  { name := s.name
    action := .CREATE
    status := .IN_PROGRESS
    status_reason := ""
    resourcesCount := t.resources.length
    totalResources := t.resources.length
    rootTotal := s.rootTotal + t.resources.length
    timeoutMins := timeout_mins
    disable_rollback := true
    owner_id := some s.stackId
    outputs := t.outputs.getD [] }

/--
`create_with_template` (lines 76-111): depth guard, size guard (template
resource count + root tree total vs ceiling), attribute bridge, construct and
validate the nested stack, cache it, persist it, bind the persisted id, then
start a CREATE task with the nested stack's timeout.
-/
def create_with_template (cfg : Config) (ev : Env) (s : ResState) (w : World)
    (child_template : RawTemplate) (timeout_mins : Option Nat) :
    Except Exc TaskRunner × ResState × World :=
  if cfg.max_nested_stack_depth ≤ s.recursion_depth then
    (.error (.RequestLimitExceeded (.recursionDepthExceeds cfg.max_nested_stack_depth)), s, w)
  else
    let template := child_template
    if cfg.max_resources_per_stack < template.resources.length + s.rootTotal then
      (.error (.RequestLimitExceeded .maxResourcesPerStack), s, w)
    else
      let s1 := outputs_to_attribs s child_template
      let nested := mkStack s1 template timeout_mins
      if ev.validateOk nested then
        let s2 := { s1 with _nested := some nested }
        let nested_id := w.nextId
        let w1 : World := { db := w.db ++ [(nested_id, nested)], nextId := w.nextId + 1 }
        let s3 := { s2 with resource_id := some nested_id }
        let task : TaskRunner :=
          { kind := .stackTask .CREATE false, started := false, startTimeout := none,
            quanta := ev.quanta }
        (.ok (task.start (some nested.timeout_secs)), s3, w1)
      else
        (.error (.StackValidationFailed nested.name), s1, w)

/--
`check_create_complete` (lines 113-120): step the task; when done, the cached
stack's state pair must be (CREATE, COMPLETE), else raise with its status
reason.  A `none` task or an empty `_nested` cache is a Python
`AttributeError`.
-/
def check_create_complete (s : ResState) (task : Option TaskRunner) :
    Except Exc (Bool × TaskRunner) :=
  match task with
  | none => .error .AttributeError
  | some tr =>
    let done := tr.stepDone
    let tr1 := tr.stepTask
    if done then
      match s._nested with
      | none => .error .AttributeError
      | some g =>
        if g.state ≠ (Action.CREATE, Status.COMPLETE) then
          .error (.Error g.status_reason)
        else
          .ok (true, tr1)
    else
      .ok (false, tr1)

/--
`update_with_template` (lines 122-160): resolve the current stack (absence is
an error), size guard with `len(new template resources) - len(current stack's
direct resources)` as the delta against the current stack's root tree total,
construct and validate the target stack, optionally rebuild the attribute
bridge, then start an update task with `start()` (no explicit timeout).
-/
def update_with_template (cfg : Config) (ev : Env) (s : ResState) (w : World)
    (child_template : RawTemplate) (timeout_mins : Option Nat) :
    Except Exc TaskRunner × ResState × World :=
  let template := child_template
  match nestedRes s w with
  | (.error e, s1) => (.error e, s1, w)
  | (.ok none, s1) =>
    (.error (.Error ("Cannot update " ++ s1.name ++ ", stack not created")), s1, w)
  | (.ok (some nested_stack), s1) =>
    let res_diff : Int := (template.resources.length : Int) - (nested_stack.resourcesCount : Int)
    let new_size : Int := (nested_stack.rootTotal : Int) + res_diff
    if (cfg.max_resources_per_stack : Int) < new_size then
      (.error (.RequestLimitExceeded .maxResourcesPerStack), s1, w)
    else
      let stack := mkStack s1 template timeout_mins
      if ev.validateOk stack then
        let s2 :=
          if s1.classAttributesSchema then s1
          else outputs_to_attribs { s1 with attributes := none } child_template
        let task : TaskRunner :=
          { kind := .updateTask stack, started := false, startTimeout := none,
            quanta := ev.quanta }
        (.ok (task.start none), s2, w)
      else
        (.error (.StackValidationFailed stack.name), s1, w)

/--
`check_update_complete` (lines 162-174): a `none` task is immediately
complete; otherwise step, and when done re-resolve the stack and require the
state pair (UPDATE, COMPLETE), else raise with a prefixed status reason.
-/
def check_update_complete (s : ResState) (w : World) (task : Option TaskRunner) :
    Except Exc (Bool × Option TaskRunner) × ResState :=
  match task with
  | none => (.ok (true, none), s)
  | some tr =>
    let done := tr.stepDone
    let tr1 := tr.stepTask
    if ¬done then
      (.ok (false, some tr1), s)
    else
      match nestedRes s w with
      | (.error e, s1) => (.error e, s1)
      | (.ok none, s1) => (.error .AttributeError, s1)
      | (.ok (some g), s1) =>
        if g.state ≠ (Action.UPDATE, Status.COMPLETE) then
          (.error (.Error ("Nested stack update failed: " ++ g.status_reason)), s1)
        else
          (.ok (true, some tr1), s1)

/--
`delete_nested` (lines 176-188): resolve the current stack, swallowing
`NotFound`; when a stack exists, start a delete task with `start()` (no
explicit timeout) and return it, otherwise return no task.
-/
def delete_nested (ev : Env) (s : ResState) (w : World) :
    Except Exc (Option TaskRunner) × ResState :=
  match nestedRes s w with
  | (.error (.NotFound _), s1) => (.ok none, s1)
  | (.error e, s1) => (.error e, s1)
  | (.ok none, s1) => (.ok none, s1)
  | (.ok (some _), s1) =>
    let task : TaskRunner :=
      { kind := .deleteTask, started := false, startTimeout := none, quanta := ev.quanta }
    (.ok (some (task.start none)), s1)

/--
`check_delete_complete` (lines 190-201): a `none` task is immediately
complete; otherwise step, and when done re-resolve the stack and require the
state pair (DELETE, COMPLETE), else raise with the status reason.
-/
def check_delete_complete (s : ResState) (w : World) (task : Option TaskRunner) :
    Except Exc (Bool × Option TaskRunner) × ResState :=
  match task with
  | none => (.ok (true, none), s)
  | some tr =>
    let done := tr.stepDone
    let tr1 := tr.stepTask
    if done then
      match nestedRes s w with
      | (.error e, s1) => (.error e, s1)
      | (.ok none, s1) => (.error .AttributeError, s1)
      | (.ok (some g), s1) =>
        if g.state ≠ (Action.DELETE, Status.COMPLETE) then
          (.error (.Error g.status_reason), s1)
        else
          (.ok (true, some tr1), s1)
    else
      (.ok (false, some tr1), s)

/--
`handle_suspend` (lines 203-214): resolve the current stack; absence is an
error; otherwise start a SUSPEND task in reverse order with the nested
stack's timeout.  The source reads `self._nested` here; after `nested()`
returned a stack, the cache holds exactly that stack, so the resolved `g`
is used.
-/
def handle_suspend (ev : Env) (s : ResState) (w : World) :
    Except Exc TaskRunner × ResState :=
  match nestedRes s w with
  | (.error e, s1) => (.error e, s1)
  | (.ok none, s1) =>
    (.error (.Error ("Cannot suspend " ++ s1.name ++ ", stack not created")), s1)
  | (.ok (some g), s1) =>
    let task : TaskRunner :=
      { kind := .stackTask .SUSPEND true, started := false, startTimeout := none,
        quanta := ev.quanta }
    (.ok (task.start (some g.timeout_secs)), s1)

/--
`check_suspend_complete` (lines 216-223): step the task (a `none` task is a
Python `AttributeError`: the source has no null check here); when done, the
cached stack's state pair must be (SUSPEND, COMPLETE).
-/
def check_suspend_complete (s : ResState) (task : Option TaskRunner) :
    Except Exc (Bool × TaskRunner) :=
  match task with
  | none => .error .AttributeError
  | some tr =>
    let done := tr.stepDone
    let tr1 := tr.stepTask
    if done then
      match s._nested with
      | none => .error .AttributeError
      | some g =>
        if g.state ≠ (Action.SUSPEND, Status.COMPLETE) then
          .error (.Error g.status_reason)
        else
          .ok (true, tr1)
    else
      .ok (false, tr1)

/--
`handle_resume` (lines 225-236): resolve the current stack; absence is an
error; otherwise start a RESUME task in forward order with the nested stack's
timeout (read through `self._nested`, equal to the resolved stack here).
-/
def handle_resume (ev : Env) (s : ResState) (w : World) :
    Except Exc TaskRunner × ResState :=
  match nestedRes s w with
  | (.error e, s1) => (.error e, s1)
  | (.ok none, s1) =>
    (.error (.Error ("Cannot resume " ++ s1.name ++ ", stack not created")), s1)
  | (.ok (some g), s1) =>
    let task : TaskRunner :=
      { kind := .stackTask .RESUME false, started := false, startTimeout := none,
        quanta := ev.quanta }
    (.ok (task.start (some g.timeout_secs)), s1)

/--
`check_resume_complete` (lines 238-245): step the task (a `none` task is a
Python `AttributeError`: the source has no null check here); when done, the
cached stack's state pair must be (RESUME, COMPLETE).
-/
def check_resume_complete (s : ResState) (task : Option TaskRunner) :
    Except Exc (Bool × TaskRunner) :=
  match task with
  | none => .error .AttributeError
  | some tr =>
    let done := tr.stepDone
    let tr1 := tr.stepTask
    if done then
      match s._nested with
      | none => .error .AttributeError
      | some g =>
        if g.state ≠ (Action.RESUME, Status.COMPLETE) then
          .error (.Error g.status_reason)
        else
          .ok (true, tr1)
    else
      .ok (false, tr1)

/--
`get_output` (lines 253-266): resolve the current stack; absence yields the
explicit no-value result; an undeclared output name raises
`InvalidTemplateAttribute` with the resource name and the key; otherwise
return the stack's output value.
-/
def get_output (s : ResState) (w : World) (op : String) :
    Except Exc (Option String) × ResState :=
  match nestedRes s w with
  | (.error e, s1) => (.error e, s1)
  | (.ok none, s1) => (.ok none, s1)
  | (.ok (some g), s1) =>
    if ¬g.hasOutput op then
      (.error (.InvalidTemplateAttribute s1.name op), s1)
    else
      (.ok (g.output op), s1)

/-! ## Concrete fixtures, used by sanity checks, witnesses and counterexamples -/

/-- A nested stack that completed its CREATE action, with one output. -/
def gFix : Stack :=
  { name := "child", action := .CREATE, status := .COMPLETE,
    status_reason := "Stack CREATE completed successfully",
    resourcesCount := 2, totalResources := 2, rootTotal := 5,
    timeoutMins := some 10, disable_rollback := true, owner_id := some 1,
    outputs := [("x", "42")] }

/-- A resource instance with `gFix` cached as its nested stack. -/
def sFix : ResState :=
  { name := "res", recursion_depth := 1, _nested := some gFix,
    resource_id := some 7, attributes := none, classAttributesSchema := false,
    stackId := 1, rootTotal := 5 }

/-- A resource instance with no nested stack and no backing id. -/
def sAbsentFix : ResState :=
  { name := "res", recursion_depth := 1, _nested := none,
    resource_id := none, attributes := none, classAttributesSchema := false,
    stackId := 1, rootTotal := 5 }

/-- A resource instance with a backing id that persistence does not know. -/
def sOrphanFix : ResState :=
  { name := "res", recursion_depth := 1, _nested := none,
    resource_id := some 9, attributes := none, classAttributesSchema := false,
    stackId := 1, rootTotal := 5 }

/-- A persistence layer holding `gFix` under id 7. -/
def wFix : World := { db := [(7, gFix)], nextId := 8 }

/-- An empty persistence layer. -/
def wEmptyFix : World := { db := [], nextId := 0 }

/-- Ceilings: depth 5, 100 resources per tree. -/
def cfgFix : Config := { max_nested_stack_depth := 5, max_resources_per_stack := 100 }

/-- Collaborator oracles: validation always succeeds, tasks need one quantum. -/
def evFix : Env := { validateOk := fun _ => true, quanta := 1 }

/-- A child template with two resources and one declared output. -/
def tFix : RawTemplate := { resources := ["a", "b"], outputs := some [("x", "def")] }

/-- A task that still needs three quanta. -/
def trPendingFix : TaskRunner :=
  { kind := .stackTask .CREATE false, started := true, startTimeout := some 600, quanta := 3 }

/-- A task on its final quantum. -/
def trDoneFix : TaskRunner :=
  { kind := .stackTask .CREATE false, started := true, startTimeout := some 600, quanta := 1 }

/-! ## Helper lemmas -/

/-- `nested()` never changes the recursion depth. -/
theorem nestedRes_recursion_depth (s : ResState) (w : World) :
    (nestedRes s w).2.recursion_depth = s.recursion_depth := by
  unfold nestedRes
  repeat' split
  all_goals rfl

/-- `_outputs_to_attribs` never changes the recursion depth. -/
theorem outputs_to_attribs_recursion_depth (s : ResState) (t : RawTemplate) :
    (outputs_to_attribs s t).recursion_depth = s.recursion_depth := by
  unfold outputs_to_attribs
  split <;> rfl

/-- The only exception `nested()` itself raises is `NotFound`. -/
theorem nestedRes_error_notFound (s : ResState) (w : World) (e : Exc) (s1 : ResState)
    (h : nestedRes s w = (.error e, s1)) :
    e = .NotFound "Nested stack not found in DB" := by
  unfold nestedRes at h
  repeat' split at h
  all_goals simp_all

/-- The state returned by `nested()` keeps the caller's recursion depth. -/
theorem nestedRes_snd_depth (s : ResState) (w : World) (r : Except Exc (Option Stack))
    (s1 : ResState) (h : nestedRes s w = (r, s1)) :
    s1.recursion_depth = s.recursion_depth := by
  have hd := nestedRes_recursion_depth s w
  rw [h] at hd
  exact hd

/-! ## Claims -/

/--
Claim C1: for a task handle driven by `check_create_complete` against an
instance whose nested stack is cached, each call steps the task exactly once
(the returned runner has consumed one quantum) and returns false while the
task is not done; on the call where the task reports done it returns true
when the cached stack's state pair is exactly (CREATE, COMPLETE), and
otherwise raises an error carrying the stack's own status reason.
-/
theorem check_create_complete_spec (s : ResState) (g : Stack) (tr : TaskRunner)
    (hg : s._nested = some g) :
    (tr.stepDone = false →
      check_create_complete s (some tr) = .ok (false, tr.stepTask)) ∧
    (tr.stepDone = true → g.state = (Action.CREATE, Status.COMPLETE) →
      check_create_complete s (some tr) = .ok (true, tr.stepTask)) ∧
    (tr.stepDone = true → g.state ≠ (Action.CREATE, Status.COMPLETE) →
      check_create_complete s (some tr) = .error (.Error g.status_reason)) := by
  unfold check_create_complete
  refine ⟨fun hd => ?_, fun hd hst => ?_, fun hd hst => ?_⟩
  · simp [hg, hd]
  · simp [hg, hd, hst]
  · simp [hg, hd, hst]

/-- Claim C1, witness: on a pending task the check returns false; on the done
quantum with a (CREATE, COMPLETE) stack it returns true. -/
theorem check_create_complete_spec_witness :
    check_create_complete sFix (some trPendingFix) = .ok (false, trPendingFix.stepTask) ∧
    check_create_complete sFix (some trDoneFix) = .ok (true, trDoneFix.stepTask) :=
  ⟨(check_create_complete_spec sFix gFix trPendingFix rfl).1 (by decide),
   (check_create_complete_spec sFix gFix trDoneFix rfl).2.1 (by decide) rfl⟩

/--
Claim C3, counterexample: a null task is not treated as already complete by
every one of the four paired completion checks: `check_suspend_complete` and
`check_resume_complete` step the task unconditionally, so on a null task they
raise (Python `AttributeError` on `None.step()`) instead of returning true.
-/
theorem check_null_task_counterexample :
    check_suspend_complete sFix none = .error .AttributeError ∧
    check_resume_complete sFix none = .error .AttributeError :=
  ⟨rfl, rfl⟩

/--
Claim C3, amended: only the update and delete completion checks treat a null
task as already complete, returning true immediately without stepping any
task and without consulting any stack state; the suspend and resume checks
have no null guard and fail on a null task.
-/
theorem check_null_task_amended (s : ResState) (w : World) :
    check_update_complete s w none = (.ok (true, none), s) ∧
    check_delete_complete s w none = (.ok (true, none), s) ∧
    check_suspend_complete s none = .error .AttributeError ∧
    check_resume_complete s none = .error .AttributeError :=
  ⟨rfl, rfl, rfl, rfl⟩

/--
Claim C2: once the current nested stack resolves, `update_with_template`
fails with the resource-limit error exactly when the resolved stack's root
tree total plus the delta (new template's resource count minus the resolved
stack's own direct resource count — not its recursive tree total) strictly
exceeds the per-tree ceiling.  The rejecting equality holds for every
collaborator oracle `ev` and returns the state and world unchanged: the
guard fires before the target stack is validated and before any task is
started, and persists nothing.
-/
theorem update_with_template_size_guard (cfg : Config) (ev : Env) (s s1 : ResState)
    (w : World) (g : Stack) (ct : RawTemplate) (tm : Option Nat)
    (hn : nestedRes s w = (.ok (some g), s1)) :
    (((cfg.max_resources_per_stack : Int) <
        (g.rootTotal : Int) + ((ct.resources.length : Int) - (g.resourcesCount : Int))) →
      update_with_template cfg ev s w ct tm =
        (.error (.RequestLimitExceeded .maxResourcesPerStack), s1, w)) ∧
    (((g.rootTotal : Int) + ((ct.resources.length : Int) - (g.resourcesCount : Int)) ≤
        (cfg.max_resources_per_stack : Int)) →
      (update_with_template cfg ev s w ct tm).1 ≠
        .error (.RequestLimitExceeded .maxResourcesPerStack)) := by
  unfold update_with_template
  constructor
  · intro h
    simp [hn, h]
  · intro h
    simp only [hn, not_lt.mpr h, if_false]
    split
    · simp
    · simp

/-- A persisted nested stack whose direct resource count (1) differs from its
tree totals (root 99): the update guard must use the direct count. -/
def gWideFix : Stack :=
  { name := "child", action := .UPDATE, status := .COMPLETE,
    status_reason := "Stack UPDATE completed successfully",
    resourcesCount := 1, totalResources := 40, rootTotal := 99,
    timeoutMins := some 10, disable_rollback := true, owner_id := some 1,
    outputs := [] }

/-- A resource instance with `gWideFix` cached as its nested stack. -/
def sWideFix : ResState :=
  { name := "res", recursion_depth := 1, _nested := some gWideFix,
    resource_id := some 7, attributes := none, classAttributesSchema := false,
    stackId := 1, rootTotal := 99 }

/-- A child template with three resources and no `Outputs` section. -/
def tThreeFix : RawTemplate := { resources := ["a", "b", "c"], outputs := none }

/-- Claim C2, witness: with a root tree of 99, a persisted nested stack of 1
direct resource and a new template of 3 resources, the new size 101 exceeds
the ceiling 100 and update is rejected with state and world untouched. -/
theorem update_with_template_size_guard_witness :
    update_with_template cfgFix evFix sWideFix wFix tThreeFix none =
      (.error (.RequestLimitExceeded .maxResourcesPerStack), sWideFix, wFix) :=
  (update_with_template_size_guard cfgFix evFix sWideFix sWideFix wFix gWideFix
    tThreeFix none rfl).1 (by decide)

/--
Claim C4: `create_with_template` rejects with the recursion-depth limit error
exactly when the instance's recursion depth has reached the configured
maximum nesting depth (so depth = ceiling fails, with no state or world
mutation, and depth < ceiling can never produce that error); and no other
lifecycle operation — update, delete, suspend or resume — can ever produce
the recursion-depth limit error.
-/
theorem recursion_depth_guard_create_only (cfg : Config) (ev : Env) (s : ResState)
    (w : World) (ct : RawTemplate) (tm : Option Nat) (m : Nat) :
    (cfg.max_nested_stack_depth ≤ s.recursion_depth →
      create_with_template cfg ev s w ct tm =
        (.error (.RequestLimitExceeded
          (.recursionDepthExceeds cfg.max_nested_stack_depth)), s, w)) ∧
    (s.recursion_depth < cfg.max_nested_stack_depth →
      (create_with_template cfg ev s w ct tm).1 ≠
        .error (.RequestLimitExceeded (.recursionDepthExceeds m))) ∧
    ((update_with_template cfg ev s w ct tm).1 ≠
      .error (.RequestLimitExceeded (.recursionDepthExceeds m))) ∧
    ((delete_nested ev s w).1 ≠
      .error (.RequestLimitExceeded (.recursionDepthExceeds m))) ∧
    ((handle_suspend ev s w).1 ≠
      .error (.RequestLimitExceeded (.recursionDepthExceeds m))) ∧
    ((handle_resume ev s w).1 ≠
      .error (.RequestLimitExceeded (.recursionDepthExceeds m))) := by
  refine ⟨fun h => ?_, fun h => ?_, ?_, ?_, ?_, ?_⟩
  · unfold create_with_template
    simp [h]
  · unfold create_with_template
    simp only [not_le.mpr h, if_false]
    split
    · simp
    · split
      · simp
      · simp
  · unfold update_with_template
    rcases hr : nestedRes s w with ⟨r, s1⟩
    rcases r with e | og
    · have he := nestedRes_error_notFound s w e s1 hr
      subst he
      simp [hr]
    · rcases og with _ | g
      · simp [hr]
      · simp only [hr]
        split
        · simp
        · split
          · simp
          · simp
  · unfold delete_nested
    rcases hr : nestedRes s w with ⟨r, s1⟩
    rcases r with e | og
    · have he := nestedRes_error_notFound s w e s1 hr
      subst he
      simp [hr]
    · rcases og with _ | g <;> simp [hr]
  · unfold handle_suspend
    rcases hr : nestedRes s w with ⟨r, s1⟩
    rcases r with e | og
    · have he := nestedRes_error_notFound s w e s1 hr
      subst he
      simp [hr]
    · rcases og with _ | g <;> simp [hr]
  · unfold handle_resume
    rcases hr : nestedRes s w with ⟨r, s1⟩
    rcases r with e | og
    · have he := nestedRes_error_notFound s w e s1 hr
      subst he
      simp [hr]
    · rcases og with _ | g <;> simp [hr]

/--
Claim C5: once the depth guard passes, `create_with_template` rejects with
the resource-limit error exactly when the candidate template's resource count
plus the root tree's total strictly exceeds the per-tree ceiling; and
whenever either quota guard rejects (depth or size), the instance state — its
attribute schema, cached nested reference and backing resource id — and the
persistence layer come back unchanged, for every collaborator oracle `ev`,
and no task handle is produced.
-/
theorem create_with_template_size_guard (cfg : Config) (ev : Env) (s : ResState)
    (w : World) (ct : RawTemplate) (tm : Option Nat) :
    (cfg.max_nested_stack_depth ≤ s.recursion_depth →
      create_with_template cfg ev s w ct tm =
        (.error (.RequestLimitExceeded
          (.recursionDepthExceeds cfg.max_nested_stack_depth)), s, w)) ∧
    (s.recursion_depth < cfg.max_nested_stack_depth →
      cfg.max_resources_per_stack < ct.resources.length + s.rootTotal →
      create_with_template cfg ev s w ct tm =
        (.error (.RequestLimitExceeded .maxResourcesPerStack), s, w)) ∧
    (s.recursion_depth < cfg.max_nested_stack_depth →
      ct.resources.length + s.rootTotal ≤ cfg.max_resources_per_stack →
      (create_with_template cfg ev s w ct tm).1 ≠
        .error (.RequestLimitExceeded .maxResourcesPerStack)) := by
  refine ⟨fun hd => ?_, fun hd hsz => ?_, fun hd hsz => ?_⟩
  · unfold create_with_template
    simp [hd]
  · unfold create_with_template
    simp [not_le.mpr hd, hsz]
  · unfold create_with_template
    simp only [not_le.mpr hd, if_false, not_lt.mpr hsz]
    split
    · simp
    · simp

/--
Claim C6: when the nested stack is absent — whether resolution raises
`NotFound` or yields no stack at all — `delete_nested` swallows the condition
and returns no task handle (so `check_delete_complete` on the null handle
immediately reports completion), while `handle_suspend` and `handle_resume`
fail with the created-stack-required error when no stack was created.
-/
theorem delete_nested_absent_spec (ev : Env) (s s1 : ResState) (w : World) (m : String) :
    (nestedRes s w = (.error (.NotFound m), s1) →
      delete_nested ev s w = (.ok none, s1)) ∧
    (nestedRes s w = (.ok none, s1) →
      delete_nested ev s w = (.ok none, s1) ∧
      check_delete_complete s1 w none = (.ok (true, none), s1) ∧
      handle_suspend ev s w =
        (.error (.Error ("Cannot suspend " ++ s1.name ++ ", stack not created")), s1) ∧
      handle_resume ev s w =
        (.error (.Error ("Cannot resume " ++ s1.name ++ ", stack not created")), s1)) := by
  constructor
  · intro h
    unfold delete_nested
    simp [h]
  · intro h
    refine ⟨?_, rfl, ?_, ?_⟩
    · unfold delete_nested
      simp [h]
    · unfold handle_suspend
      simp [h]
    · unfold handle_resume
      simp [h]

/--
Claim C7: `get_output` returns the explicit no-value result when no nested
stack exists; raises `InvalidTemplateAttribute` naming the resource and the
requested key when the stack exists but does not declare that output; and
otherwise returns the stack's value for that output.
-/
theorem get_output_spec (s s1 : ResState) (w : World) (g : Stack) (op : String) :
    (nestedRes s w = (.ok none, s1) →
      get_output s w op = (.ok none, s1)) ∧
    (nestedRes s w = (.ok (some g), s1) → g.hasOutput op = false →
      get_output s w op = (.error (.InvalidTemplateAttribute s1.name op), s1)) ∧
    (nestedRes s w = (.ok (some g), s1) → g.hasOutput op = true →
      get_output s w op = (.ok (g.output op), s1)) := by
  refine ⟨fun h => ?_, fun h ho => ?_, fun h ho => ?_⟩
  · unfold get_output
    simp [h]
  · unfold get_output
    simp [h, ho]
  · unfold get_output
    simp [h, ho]

/--
Claim C8, counterexample: `update_with_template` starts its task with
`start()` and no explicit timeout — on a concrete successful update the
returned task was started with `startTimeout = none`, refuting the claim that
update passes an explicit timeout value through.
-/
theorem update_start_timeout_counterexample :
    (update_with_template cfgFix evFix sFix wFix tFix none).1.map
      (fun tr => (tr.started, tr.startTimeout)) = .ok (true, none) := by
  rfl

/--
Claim C8, amended: create, suspend and resume start their tasks with an
explicit timeout equal to the nested stack's configured `timeout_secs`;
update and delete start their tasks with no explicit timeout, inheriting the
stack's own configured timeout.
-/
theorem task_start_timeout_spec (cfg : Config) (ev : Env) (s s1 s2 : ResState)
    (w w2 : World) (ct : RawTemplate) (tm : Option Nat) (g : Stack) (tr : TaskRunner) :
    (create_with_template cfg ev s w ct tm = (.ok tr, s2, w2) →
      tr.started = true ∧
      tr.startTimeout = some ((mkStack (outputs_to_attribs s ct) ct tm).timeout_secs)) ∧
    (update_with_template cfg ev s w ct tm = (.ok tr, s2, w2) →
      tr.started = true ∧ tr.startTimeout = none) ∧
    (delete_nested ev s w = (.ok (some tr), s2) →
      tr.started = true ∧ tr.startTimeout = none) ∧
    (nestedRes s w = (.ok (some g), s1) →
      (handle_suspend ev s w = (.ok tr, s2) →
        tr.started = true ∧ tr.startTimeout = some g.timeout_secs) ∧
      (handle_resume ev s w = (.ok tr, s2) →
        tr.started = true ∧ tr.startTimeout = some g.timeout_secs)) := by
  refine ⟨fun h => ?_, fun h => ?_, fun h => ?_, fun hn => ⟨fun h => ?_, fun h => ?_⟩⟩
  · unfold create_with_template at h
    by_cases hd : cfg.max_nested_stack_depth ≤ s.recursion_depth
    · simp [hd] at h
    · by_cases hsz : cfg.max_resources_per_stack < ct.resources.length + s.rootTotal
      · simp [hd, hsz] at h
      · by_cases hv : ev.validateOk (mkStack (outputs_to_attribs s ct) ct tm) = true
        · simp only [hd, hsz, hv, if_true, if_false, Prod.mk.injEq,
            Except.ok.injEq, if_neg, not_false_eq_true] at h
          obtain ⟨h1, h2, h3⟩ := h
          subst h1
          exact ⟨rfl, rfl⟩
        · simp [hd, hsz, hv] at h
  · unfold update_with_template at h
    rcases hr : nestedRes s w with ⟨r, s1'⟩
    rw [hr] at h
    rcases r with e | og
    · simp at h
    · rcases og with _ | g1
      · simp at h
      · by_cases hsz : (cfg.max_resources_per_stack : Int) <
            (g1.rootTotal : Int) + ((ct.resources.length : Int) - (g1.resourcesCount : Int))
        · simp [hsz] at h
        · by_cases hv : ev.validateOk (mkStack s1' ct tm) = true
          · simp only [hsz, hv, if_true, if_false, Prod.mk.injEq,
              Except.ok.injEq, if_neg, not_false_eq_true] at h
            obtain ⟨h1, h2, h3⟩ := h
            subst h1
            exact ⟨rfl, rfl⟩
          · simp [hsz, hv] at h
  · unfold delete_nested at h
    rcases hr : nestedRes s w with ⟨r, s1'⟩
    rw [hr] at h
    rcases r with e | og
    · have he := nestedRes_error_notFound s w e s1' hr
      subst he
      simp at h
    · rcases og with _ | g1
      · simp at h
      · simp only [Prod.mk.injEq, Except.ok.injEq, Option.some.injEq] at h
        obtain ⟨h1, h2⟩ := h
        subst h1
        exact ⟨rfl, rfl⟩
  · unfold handle_suspend at h
    rw [hn] at h
    simp only [TaskRunner.start, Prod.mk.injEq, Except.ok.injEq] at h
    obtain ⟨h1, h2⟩ := h
    subst h1
    exact ⟨rfl, rfl⟩
  · unfold handle_resume at h
    rw [hn] at h
    simp only [TaskRunner.start, Prod.mk.injEq, Except.ok.injEq] at h
    obtain ⟨h1, h2⟩ := h
    subst h1
    exact ⟨rfl, rfl⟩

/--
Claim C9: `recursion_depth` is computed at construction as the parent
resource's depth + 1 when a parent resource exists and 0 otherwise, and none
of the orchestrator's operations changes it afterwards: every operation
returns a state with the same recursion depth.
-/
theorem recursion_depth_invariant (name : String) (pd : Option Nat) (sid rt : Nat)
    (rid : Option Nat) (attrs : Option (List String)) (cf : Bool)
    (cfg : Config) (ev : Env) (s : ResState) (w : World) (ct : RawTemplate)
    (tm : Option Nat) (op : String) (task : Option TaskRunner) :
    (init name pd sid rt rid attrs cf).recursion_depth =
      (match pd with | some d => d + 1 | none => 0) ∧
    (create_with_template cfg ev s w ct tm).2.1.recursion_depth = s.recursion_depth ∧
    (update_with_template cfg ev s w ct tm).2.1.recursion_depth = s.recursion_depth ∧
    (delete_nested ev s w).2.recursion_depth = s.recursion_depth ∧
    (handle_suspend ev s w).2.recursion_depth = s.recursion_depth ∧
    (handle_resume ev s w).2.recursion_depth = s.recursion_depth ∧
    (nestedRes s w).2.recursion_depth = s.recursion_depth ∧
    (get_output s w op).2.recursion_depth = s.recursion_depth ∧
    (check_update_complete s w task).2.recursion_depth = s.recursion_depth ∧
    (check_delete_complete s w task).2.recursion_depth = s.recursion_depth := by
  refine ⟨rfl, ?_, ?_, ?_, ?_, ?_, nestedRes_recursion_depth s w, ?_, ?_, ?_⟩
  · unfold create_with_template
    by_cases hd : cfg.max_nested_stack_depth ≤ s.recursion_depth
    · simp [hd]
    · by_cases hsz : cfg.max_resources_per_stack < ct.resources.length + s.rootTotal
      · simp [hd, hsz]
      · by_cases hv : ev.validateOk (mkStack (outputs_to_attribs s ct) ct tm) = true
        · simp [hd, hsz, hv, outputs_to_attribs_recursion_depth]
        · simp [hd, hsz, hv, outputs_to_attribs_recursion_depth]
  · unfold update_with_template
    rcases hr : nestedRes s w with ⟨r, s1⟩
    have hd1 := nestedRes_snd_depth s w r s1 hr
    rcases r with e | og
    · simpa [hr] using hd1
    · rcases og with _ | g
      · simpa [hr] using hd1
      · simp only [hr]
        repeat' split
        all_goals simp_all [outputs_to_attribs_recursion_depth]
  · unfold delete_nested
    rcases hr : nestedRes s w with ⟨r, s1⟩
    have hd1 := nestedRes_snd_depth s w r s1 hr
    rcases r with e | og
    · have he := nestedRes_error_notFound s w e s1 hr
      subst he
      simpa [hr] using hd1
    · rcases og with _ | g <;> simpa [hr] using hd1
  · unfold handle_suspend
    rcases hr : nestedRes s w with ⟨r, s1⟩
    have hd1 := nestedRes_snd_depth s w r s1 hr
    rcases r with e | og
    · simpa [hr] using hd1
    · rcases og with _ | g <;> simpa [hr] using hd1
  · unfold handle_resume
    rcases hr : nestedRes s w with ⟨r, s1⟩
    have hd1 := nestedRes_snd_depth s w r s1 hr
    rcases r with e | og
    · simpa [hr] using hd1
    · rcases og with _ | g <;> simpa [hr] using hd1
  · unfold get_output
    rcases hr : nestedRes s w with ⟨r, s1⟩
    have hd1 := nestedRes_snd_depth s w r s1 hr
    rcases r with e | og
    · simpa [hr] using hd1
    · rcases og with _ | g
      · simpa [hr] using hd1
      · simp only [hr]
        split
        · simpa using hd1
        · simpa using hd1
  · unfold check_update_complete
    rcases task with _ | tr
    · rfl
    · rcases hr : nestedRes s w with ⟨r, s1⟩
      have hd1 := nestedRes_snd_depth s w r s1 hr
      simp only [hr]
      repeat' split
      all_goals simp_all
  · unfold check_delete_complete
    rcases task with _ | tr
    · rfl
    · rcases hr : nestedRes s w with ⟨r, s1⟩
      have hd1 := nestedRes_snd_depth s w r s1 hr
      simp only [hr]
      repeat' split
      all_goals simp_all

/--
Claim C10: `nested()` returns the cached stack when one is present; with no
cache and no backing id it returns absence; with a backing id that
persistence cannot resolve it raises `NotFound` rather than returning
absence — and `get_output` on such an instance propagates the `NotFound`
instead of returning the no-value result; with a resolvable backing id it
returns the loaded stack and caches it.
-/
theorem nested_lookup_spec (s : ResState) (w : World) (g : Stack) (rid : Nat)
    (op : String) :
    (s._nested = some g → nestedRes s w = (.ok (some g), s)) ∧
    (s._nested = none → s.resource_id = none → nestedRes s w = (.ok none, s)) ∧
    (s._nested = none → s.resource_id = some rid → w.db.lookup rid = none →
      nestedRes s w = (.error (.NotFound "Nested stack not found in DB"), s) ∧
      get_output s w op = (.error (.NotFound "Nested stack not found in DB"), s)) ∧
    (s._nested = none → s.resource_id = some rid → w.db.lookup rid = some g →
      nestedRes s w = (.ok (some g), { s with _nested := some g })) := by
  refine ⟨fun h1 => ?_, fun h1 h2 => ?_, fun h1 h2 h3 => ⟨?_, ?_⟩, fun h1 h2 h3 => ?_⟩
  · unfold nestedRes
    simp [h1]
  · unfold nestedRes
    simp [h1, h2]
  · unfold nestedRes
    simp [h1, h2, h3]
  · unfold get_output nestedRes
    simp [h1, h2, h3]
  · unfold nestedRes
    simp [h1, h2, h3]

/-! ## Concrete evaluations of the embedded operations -/

/-- A successful creation starts its task with the nested stack's timeout
(10 minutes = 600 seconds). -/
theorem create_with_template_eval :
    (create_with_template cfgFix evFix sAbsentFix wEmptyFix tFix (some 10)).1.map
      (fun tr => (tr.started, tr.startTimeout)) = .ok (true, some 600) := rfl

/-- Creation at the depth ceiling is rejected with state and world untouched. -/
theorem create_with_template_depth_eval :
    create_with_template cfgFix evFix { sAbsentFix with recursion_depth := 5 }
        wEmptyFix tFix none =
      (.error (.RequestLimitExceeded (.recursionDepthExceeds 5)),
        { sAbsentFix with recursion_depth := 5 }, wEmptyFix) := rfl

/-- A declared output resolves to its value; an undeclared one raises; with
no created stack the no-value result comes back. -/
theorem get_output_eval :
    get_output sFix wFix "x" = (.ok (some "42"), sFix) ∧
    get_output sFix wFix "y" = (.error (.InvalidTemplateAttribute "res" "y"), sFix) ∧
    get_output sAbsentFix wEmptyFix "x" = (.ok none, sAbsentFix) := ⟨rfl, rfl, rfl⟩

/-- Deleting when the backing id resolves to nothing swallows the `NotFound`
and returns no task. -/
theorem delete_nested_eval :
    delete_nested evFix sOrphanFix wEmptyFix = (.ok none, sOrphanFix) := rfl

end StackRes
